import Mathlib

/-!
Shallow embedding of the output-classification and adaptive-command loop of
`sqlmap_ai_pro.py` (class `SQLMapProOptimizer`): the pattern catalog
(`load_error_patterns`), runtime learning (`machine_learn`), the per-line
classification loop inside `realtime_analysis` (including CPython's
dictionary-changed-size-during-iteration check, since the learning step
mutates the catalog while it is being iterated), report generation
(`generate_report`), and the confirmation-driven command mutation in `run`.
-/

namespace SqlmapAI

/-- Trigger patterns in the catalog are either regex-escaped literals or a
literal, an unconstrained gap, and a second literal (the shape of
`403 Forbidden.*Ray ID`); `re.search` with `re.IGNORECASE` on such patterns
is case-insensitive substring search. -/
inductive Pat where
  | lit : String → Pat
  | litGapLit : String → String → Pat
deriving DecidableEq, Repr

/-- Does `pat` occur as a contiguous sublist of `hay`? -/
def listContains (hay pat : List Char) : Bool :=
  (List.range (hay.length + 1)).any fun i => pat.isPrefixOf (hay.drop i)

/-- Substring test on strings, via the underlying character lists. -/
def strContains (hay pat : String) : Bool :=
  listContains hay.data pat.data

/-- Python `str.lower()`, character by character (the catalog patterns and
the prompt answer are ASCII). -/
def pyLower (s : String) : String :=
  ⟨s.data.map Char.toLower⟩

/-- Case-insensitive regex search (`re.search(pattern, line, re.IGNORECASE)`)
for the two pattern shapes appearing in the catalog. -/
def Pat.search (p : Pat) (line : String) : Bool :=
  match p with
  | .lit s => strContains (pyLower line) (pyLower s)
  | .litGapLit a b =>
      let hay := (pyLower line).data
      let aa := (pyLower a).data
      let bb := (pyLower b).data
      (List.range (hay.length + 1)).any fun i =>
        aa.isPrefixOf (hay.drop i) && listContains (hay.drop (i + aa.length)) bb

/-- Python `str.strip()` treats these six characters as whitespace. -/
def pyIsSpace (c : Char) : Bool :=
  c = ' ' || c = '\t' || c = '\n' || c = '\r' || c = '\x0b' || c = '\x0c'

/-- Python `line.strip()`: drop leading and trailing whitespace. -/
def pyStrip (s : String) : String :=
  ⟨((s.data.dropWhile pyIsSpace).reverse.dropWhile pyIsSpace).reverse⟩

/-- The `solutions` dictionary attached to a failure class: tamper scripts,
generic parameters, and the optional `advanced` parameters. -/
structure Solutions where
  tampers : List String
  params : List String
  advanced : Option (List String)
deriving DecidableEq, Repr

/-- One value of the `error_db` dictionary: trigger patterns, solutions, and
the learned flag. -/
structure ClassData where
  triggers : List Pat
  solutions : Solutions
  learned : Bool
deriving DecidableEq, Repr

/-- The `error_db` dictionary: insertion-ordered key/value pairs, keys
unique, as in a Python dict. -/
abbrev ErrorDB := List (String × ClassData)

def trig500a : Pat := .lit "500 (Internal Server Error)"

def trig500b : Pat := .lit "SQL syntax error"

def trigCFa : Pat := .lit "Cloudflare"

def trigCFb : Pat := .litGapLit "403 Forbidden" "Ray ID"

def sol500 : Solutions :=
  { tampers := ["between", "space2comment", "space2mysqlblank"]
    params := ["--level=3", "--risk=2"]
    advanced := none }

def solCloudflare : Solutions :=
  { tampers := ["randomcase", "space2plus"]
    params := ["--delay=7", "--proxy=\x7bproxy\x7d"]
    advanced := some ["--flush-session", "--timeout=20"] }

def data500 : ClassData :=
  { triggers := [trig500a, trig500b], solutions := sol500, learned := false }

def dataCloudflare : ClassData :=
  { triggers := [trigCFa, trigCFb], solutions := solCloudflare, learned := true }

/-- The initial catalog built by `load_error_patterns`. -/
def load_error_patterns : ErrorDB :=
  [("500", data500), ("cloudflare", dataCloudflare)]

/-- The generic remedy attached to a learned class by `machine_learn`. -/
def genericSolutions : Solutions :=
  { tampers := ["generic"], params := ["--level=2"], advanced := none }

/-- The class value `machine_learn` stores under the key `custom`. -/
def customClass (pattern : Pat) : ClassData :=
  { triggers := [pattern], solutions := genericSolutions, learned := true }

/-- Python dict assignment `db[k] = v`: replace in place if the key exists,
otherwise append at the end. -/
def setKey : ErrorDB → String → ClassData → ErrorDB
  | [], k, v => [(k, v)]
  | e :: rest, k, v => if e.1 = k then (k, v) :: rest else e :: setKey rest k v

/-- `machine_learn(pattern)`: unconditionally `self.error_db['custom'] = ...`
with the single trigger, generic solutions and `learned = True`. -/
def machine_learn (db : ErrorDB) (pattern : Pat) : ErrorDB :=
  setKey db "custom" (customClass pattern)

/-- Dictionary lookup, `db[k]` as an `Option`. -/
def findClass (db : ErrorDB) (k : String) : Option ClassData :=
  (db.find? fun e => e.1 == k).map (·.2)

/-- One entry of `optimization_history`: the dict
`{'type': ..., 'timestamp': ..., 'solution': data['solutions']}`. -/
structure Suggestion where
  type : String
  timestamp : Nat
  solution : Solutions
deriving DecidableEq, Repr

/-- Result of pushing one output line through the classification loop body:
the suggestions built (and yielded), the catalog afterwards, the patterns
passed to `machine_learn`, and whether a `RuntimeError` escaped because the
dictionary changed size while being iterated. -/
structure LineStep where
  suggestions : List Suggestion
  db : ErrorDB
  learns : List Pat
  raised : Bool
deriving DecidableEq, Repr

/-- The inner loop `for pattern in data['triggers']` for one catalog entry:
on a match, `machine_learn` first when the class is not learned, then a
suggestion from the entry's snapshot of `data['solutions']`. Returns the
suggestions, the catalog after any learning, and the learned patterns. -/
def processEntry (line : String) (t : Nat) (key : String) (data : ClassData)
    (db : ErrorDB) : List Suggestion × ErrorDB × List Pat :=
  data.triggers.foldl
    (fun acc pat =>
      if pat.search line then
        let db2 := if data.learned then acc.2.1 else machine_learn acc.2.1 pat
        let learns2 := if data.learned then acc.2.2 else acc.2.2 ++ [pat]
        (acc.1 ++ [{ type := key, timestamp := t, solution := data.solutions }],
         db2, learns2)
      else acc)
    ([], db, [])

/-- The outer loop `for err_type, data in self.error_db.items()`. CPython's
dict iterator compares the dict's size with the size recorded at iterator
creation (`n0`) on every advance and raises `RuntimeError` when they differ,
which is what happens after `machine_learn` inserts the `custom` key. The
iteration is positional over the live dict. `fuel` starts at `n0 + 1`, which
the size guard makes sufficient, so the fuel-exhausted case is unreachable. -/
def classifyGo (line : String) (t : Nat) (n0 : Nat) :
    Nat → ErrorDB → Nat → List Suggestion → List Pat → LineStep
  | 0, db, _, sugs, learns => ⟨sugs, db, learns, true⟩
  | fuel + 1, db, i, sugs, learns =>
      if db.length = n0 then
        if h : i < db.length then
          let e := db.get ⟨i, h⟩
          let r := processEntry line t e.1 e.2 db
          classifyGo line t n0 fuel r.2.1 (i + 1) (sugs ++ r.1) (learns ++ r.2.2)
        else ⟨sugs, db, learns, false⟩
      else ⟨sugs, db, learns, true⟩

/-- The classification/learning step of `realtime_analysis` for a single
output line, against catalog `db`, at timestamp `t`. -/
def classifyLine (db : ErrorDB) (line : String) (t : Nat) : LineStep :=
  classifyGo line t db.length (db.length + 1) db 0 [] []

/-- Observable trace of `realtime_analysis`: the lines echoed by
`print(line.strip())`, the accumulated `optimization_history`, the final
catalog, whether an error escaped the loop, and whether the trailing
`generate_report` call was reached. -/
structure RunTrace where
  echoes : List String
  history : List Suggestion
  db : ErrorDB
  raised : Bool
  flushed : Bool
deriving DecidableEq, Repr

/-- `realtime_analysis` over the finite list of lines the subprocess
produces: each line is echoed stripped, then classified; a `RuntimeError`
escaping the classification ends the loop with no report; when the line
source is exhausted, `generate_report` runs on the collected history. -/
def realtime_analysis (db : ErrorDB) (lines : List String) (t : Nat) : RunTrace :=
  match lines with
  | [] => { echoes := [], history := [], db := db, raised := false, flushed := true }
  | l :: ls =>
      let step := classifyLine db l t
      if step.raised then
        { echoes := [pyStrip l], history := step.suggestions, db := step.db,
          raised := true, flushed := false }
      else
        let rest := realtime_analysis step.db ls t
        { echoes := pyStrip l :: rest.echoes,
          history := step.suggestions ++ rest.history,
          db := rest.db, raised := rest.raised, flushed := rest.flushed }

/-- Observable outcome of `run`: whether the subprocess launched, the echoed
lines, the history, the final catalog, how many times `generate_report` ran,
and whether an exception was caught by the top-level handler. -/
structure RunResult where
  launched : Bool
  echoes : List String
  history : List Suggestion
  db : ErrorDB
  flushCount : Nat
  crashed : Bool
deriving DecidableEq, Repr

/-- The `run` control flow around `realtime_analysis`: a failed
`subprocess.Popen` raises before the generator ever runs, and any exception
escaping the generator is caught by the top-level `except` after the report
step has been skipped. -/
def run (launchOk : Bool) (lines : List String) (t : Nat) : RunResult :=
  if launchOk then
    let tr := realtime_analysis load_error_patterns lines t
    { launched := true, echoes := tr.echoes, history := tr.history, db := tr.db,
      flushCount := if tr.flushed then 1 else 0, crashed := tr.raised }
  else
    { launched := false, echoes := [], history := [], db := load_error_patterns,
      flushCount := 0, crashed := true }

/-- Does the line match a trigger of the unlearned built-in class `500`
(the condition under which the classification step learns and hence the
dict-size guard fires)? -/
def matches500 (line : String) : Bool :=
  trig500a.search line || trig500b.search line

/-- Number of lines the loop consumes before stopping: everything up to and
including the first line that makes the classification step raise. -/
def consumedCount : List String → Nat
  | [] => 0
  | l :: ls => if matches500 l then 1 else consumedCount ls + 1

/-- The suggestion built for a line matching a `500` trigger. -/
def sug500 (t : Nat) : Suggestion :=
  { type := "500", timestamp := t, solution := sol500 }

/-- The suggestion built for a line matching a `cloudflare` trigger. -/
def sugCF (t : Nat) : Suggestion :=
  { type := "cloudflare", timestamp := t, solution := solCloudflare }

/-- The fixed heading `generate_report` writes first. -/
def reportHeader : String := "<h1>SQLMap AI Optimizer Report</h1>"

/-- `json.dumps` of a list of strings. -/
def jsonList (xs : List String) : String :=
  "[" ++ String.intercalate ", " (xs.map fun s => "\"" ++ s ++ "\"") ++ "]"

/-- `json.dumps(opt['solution'])`: the solutions dict in insertion order. -/
def jsonSolutions (s : Solutions) : String :=
  "\x7b\"tampers\": " ++ jsonList s.tampers ++ ", \"params\": " ++ jsonList s.params ++
    (match s.advanced with
     | none => ""
     | some a => ", \"advanced\": " ++ jsonList a) ++ "\x7d"

/-- The markup written for one history entry. -/
def reportEntry (s : Suggestion) : String :=
  "<p><b>" ++ s.type ++ "</b>: " ++ jsonSolutions s.solution ++ "</p>"

/-- The full text `generate_report` writes: the header, then one entry per
optimization in history order (the file-write loop). -/
def generate_report_content (optimizations : List Suggestion) : String :=
  optimizations.foldl (fun acc opt => acc ++ reportEntry opt) reportHeader

/-- The report path `./reports/{session_id}_report.html`. -/
def generate_report_file (sessionId : String) : String :=
  "./reports/" ++ sessionId ++ "_report.html"

/-- The proxy list `load_proxies` falls back to when `proxy_list.txt` is
absent. -/
def defaultProxyList : List String := ["http://127.0.0.1:8080"]

/-- `random.choice(l)`, with the pseudo-random draw modelled as an arbitrary
index reduced modulo the list length. -/
def random_choice (l : List String) (idx : Nat) : String :=
  l.getD (idx % l.length) "http://127.0.0.1:8080"

/-- The parameter list appended on an affirmative answer in `run`. -/
def newParams (proxyList : List String) (idx : Nat) : List String :=
  ["--tamper=randomcase,space2plus", "--delay=7",
   "--proxy=" ++ random_choice proxyList idx]

/-- The confirmation branch of `run` for one yielded optimization: on a
`cloudflare` suggestion the operator is prompted, and any answer whose
lowercase form differs from `"n"` extends the command list. -/
def applyOptimization (optType choice : String) (cmd : List String)
    (proxyList : List String) (idx : Nat) : List String :=
  if optType = "cloudflare" then
    if pyLower choice ≠ "n" then cmd ++ newParams proxyList idx else cmd
  else cmd


/-- Closed form of the classification step on the initial catalog: each
matching trigger of `500` yields its own suggestion and a learn call, and
the catalog insertion trips the dict-size guard; otherwise only the
`cloudflare` triggers are reported and nothing changes. -/
lemma classifyLine_db0 (line : String) (t : Nat) :
    classifyLine load_error_patterns line t =
      if matches500 line then
        { suggestions := (if trig500a.search line then [sug500 t] else []) ++
              (if trig500b.search line then [sug500 t] else []),
          db := load_error_patterns ++
              [("custom", customClass (if trig500b.search line then trig500b else trig500a))],
          learns := (if trig500a.search line then [trig500a] else []) ++
              (if trig500b.search line then [trig500b] else []),
          raised := true }
      else
        { suggestions := (if trigCFa.search line then [sugCF t] else []) ++
              (if trigCFb.search line then [sugCF t] else []),
          db := load_error_patterns,
          learns := [],
          raised := false } := by
  cases hb1 : trig500a.search line <;> cases hb2 : trig500b.search line <;>
    cases hb3 : trigCFa.search line <;> cases hb4 : trigCFb.search line <;>
    simp [classifyLine, classifyGo, processEntry, machine_learn, setKey,
      load_error_patterns, data500, dataCloudflare, matches500, sug500, sugCF,
      customClass, hb1, hb2, hb3, hb4]

lemma classify_raised (line : String) (t : Nat) :
    (classifyLine load_error_patterns line t).raised = matches500 line := by
  cases h : matches500 line <;> simp [classifyLine_db0, h]

lemma classify_db_not500 (line : String) (t : Nat) (h : matches500 line = false) :
    (classifyLine load_error_patterns line t).db = load_error_patterns := by
  simp [classifyLine_db0, h]

lemma classify_sugs_mem (line : String) (t : Nat) :
    ∀ s ∈ (classifyLine load_error_patterns line t).suggestions,
      s = sug500 t ∨ s = sugCF t := by
  intro s hs
  rw [classifyLine_db0] at hs
  cases h : matches500 line <;> rw [h] at hs <;> simp at hs <;>
    rcases hs with hs | hs <;> simp_all

lemma realtime_flushed (lines : List String) (t : Nat) :
    (realtime_analysis load_error_patterns lines t).flushed =
      !(lines.any matches500) := by
  induction lines with
  | nil => simp [realtime_analysis]
  | cons l ls ih =>
      cases h : matches500 l
      · have hr : (classifyLine load_error_patterns l t).raised = false := by
          rw [classify_raised, h]
        simp [realtime_analysis, hr, classify_db_not500 l t h, ih, h]
      · have hr : (classifyLine load_error_patterns l t).raised = true := by
          rw [classify_raised, h]
        simp [realtime_analysis, hr, h]

lemma realtime_history_mem (lines : List String) (t : Nat) :
    ∀ s ∈ (realtime_analysis load_error_patterns lines t).history,
      s = sug500 t ∨ s = sugCF t := by
  induction lines with
  | nil => simp [realtime_analysis]
  | cons l ls ih =>
      intro s hs
      cases h : matches500 l
      · have hr : (classifyLine load_error_patterns l t).raised = false := by
          rw [classify_raised, h]
        rw [realtime_analysis] at hs
        simp only [hr, if_false, Bool.false_eq_true] at hs
        rw [classify_db_not500 l t h] at hs
        simp only [List.mem_append] at hs
        rcases hs with hs | hs
        · exact classify_sugs_mem l t s hs
        · exact ih s hs
      · have hr : (classifyLine load_error_patterns l t).raised = true := by
          rw [classify_raised, h]
        rw [realtime_analysis] at hs
        simp only [hr, if_true] at hs
        exact classify_sugs_mem l t s hs

lemma setKey_setKey (db : ErrorDB) (k : String) (v w : ClassData) :
    setKey (setKey db k v) k w = setKey db k w := by
  induction db with
  | nil => simp [setKey]
  | cons e rest ih => by_cases h : e.1 = k <;> simp [setKey, h, ih]

lemma setKey_length (db : ErrorDB) (k : String) (v : ClassData) :
    (setKey db k v).length ≤ db.length + 1 := by
  induction db with
  | nil => simp [setKey]
  | cons e rest ih =>
      by_cases h : e.1 = k
      · simp [setKey, h]
      · simp only [setKey, h, if_false, List.length_cons]
        omega

lemma findClass_setKey_self (db : ErrorDB) (k : String) (v : ClassData) :
    findClass (setKey db k v) k = some v := by
  induction db with
  | nil => simp [setKey, findClass]
  | cons e rest ih =>
      by_cases h : e.1 = k
      · simp [setKey, findClass, h]
      · simp only [setKey, h, if_false]
        simpa [findClass, h] using ih

lemma findClass_setKey_ne (db : ErrorDB) (k k' : String) (v : ClassData)
    (h : k ≠ k') : findClass (setKey db k' v) k = findClass db k := by
  have hb : (k' == k) = false := beq_eq_false_iff_ne.mpr (Ne.symm h)
  induction db with
  | nil => simp [setKey, findClass, List.find?, hb]
  | cons e rest ih =>
      by_cases he : e.1 = k'
      · have hbe : (e.1 == k) = false := by rw [he]; exact hb
        simp [setKey, he, findClass, List.find?, hb, hbe]
      · by_cases hek : e.1 = k
        · have hbe : (e.1 == k) = true := beq_iff_eq.mpr hek
          simp [setKey, he, findClass, List.find?, hbe]
        · have hbe : (e.1 == k) = false := beq_eq_false_iff_ne.mpr hek
          simpa [setKey, he, findClass, List.find?, hbe] using ih

lemma machine_learn_step (q p : Pat) :
    machine_learn (load_error_patterns ++ [("custom", customClass q)]) p =
      load_error_patterns ++ [("custom", customClass p)] := by
  simp [machine_learn, setKey, load_error_patterns]

/-- The pattern stored by the last `machine_learn` call of the sequence
`q :: ps`. -/
def lastLearn (q : Pat) : List Pat -> Pat
  | [] => q
  | p :: ps => lastLearn p ps

lemma machine_learn_foldl (q : Pat) (ps : List Pat) :
    ps.foldl machine_learn (load_error_patterns ++ [("custom", customClass q)]) =
      load_error_patterns ++ [("custom", customClass (lastLearn q ps))] := by
  induction ps generalizing q with
  | nil => simp [lastLearn]
  | cons p ps ih => simp [List.foldl, machine_learn_step, ih, lastLearn]

lemma machine_learn_db0 (p : Pat) :
    machine_learn load_error_patterns p =
      load_error_patterns ++ [("custom", customClass p)] := by
  simp [machine_learn, setKey, load_error_patterns]

lemma strData_append (a b : String) : (a ++ b).data = a.data ++ b.data := rfl

lemma strFoldl_data (l : List String) :
    ∀ init : String,
      (l.foldl (· ++ ·) init).data = init.data ++ (l.map String.data).flatten := by
  induction l with
  | nil => intro init; simp
  | cons x xs ih =>
      intro init
      simp [List.foldl, ih, strData_append, List.append_assoc]

lemma strJoin_data (l : List String) :
    (String.join l).data = (l.map String.data).flatten := by
  simp [String.join, strFoldl_data l ""]

lemma report_content_eq (opts : List Suggestion) :
    generate_report_content opts = reportHeader ++ String.join (opts.map reportEntry) := by
  apply String.ext
  have h1 : generate_report_content opts =
      (opts.map reportEntry).foldl (· ++ ·) reportHeader := by
    rw [generate_report_content, List.foldl_map]
  rw [h1, strData_append, strJoin_data, strFoldl_data, List.map_map]

/-- C1 counterexample: the line matching both triggers of class `500` gets
two suggestions for that one class, not one (the claimed
first-matching-pattern-only behavior does not hold). -/
theorem classify_two_suggestions_same_class :
    (classifyLine load_error_patterns
        "500 (Internal Server Error): SQL syntax error" 0).suggestions =
      [sug500 0, sug500 0] ∧ (sug500 0).type = "500" := by
  decide

/-- C1 (amended): `classify` produces one suggestion per matching trigger
pattern of each class, in catalog order then trigger order, each carrying
the matched class's id; when a `500` trigger matches, the learning step
makes iteration raise after that class, so `cloudflare` matches of the same
line are not reported. -/
theorem classify_one_suggestion_per_matching_pattern (line : String) (t : Nat) :
    (classifyLine load_error_patterns line t).suggestions =
      ((if trig500a.search line then [sug500 t] else []) ++
       (if trig500b.search line then [sug500 t] else [])) ++
      (if matches500 line then []
       else (if trigCFa.search line then [sugCF t] else []) ++
            (if trigCFb.search line then [sugCF t] else [])) := by
  cases hb1 : trig500a.search line <;> cases hb2 : trig500b.search line <;>
    simp [classifyLine_db0, matches500, hb1, hb2]

/-- C2: the code contradicts the error-propagation policy. A line matching
the unlearned class `500` makes `machine_learn` insert the `custom` key into
the dictionary being iterated, so the classification step raises a
`RuntimeError` that escapes the loop; the run crashes and `generate_report`
is never reached. -/
theorem learn_step_raises_and_flush_skipped :
    (classifyLine load_error_patterns "SQL syntax error" 0).raised = true ∧
    (classifyLine load_error_patterns "SQL syntax error" 0).learns = [trig500b] ∧
    (run true ["SQL syntax error"] 0).crashed = true ∧
    (run true ["SQL syntax error"] 0).flushCount = 0 ∧
    (run true ["SQL syntax error"] 0).history = [sug500 0] := by
  decide

/-- C3 counterexample: `machine_learn` with a pattern that an existing class
already contains still installs a new `custom` class, leaving two classes
with the same trigger; no duplicate check and no `custom-2` suffix exist. -/
theorem machine_learn_adds_duplicate_trigger :
    trig500b ∈ data500.triggers ∧
    machine_learn load_error_patterns trig500b =
      load_error_patterns ++ [("custom", customClass trig500b)] ∧
    ((machine_learn load_error_patterns trig500b).filter
        fun e => e.2.triggers.contains trig500b).length = 2 := by
  decide

/-- C3 (amended): `machine_learn` unconditionally stores, under the fixed
key `custom`, a learned class with the given single trigger and the generic
remedy, overwriting any previous `custom` entry (a second learn absorbs the
first), so the catalog grows by at most one entry in total. -/
theorem machine_learn_overwrites_fixed_key (db : ErrorDB) (p q : Pat) :
    machine_learn (machine_learn db p) q = machine_learn db q ∧
    (machine_learn db p).length ≤ db.length + 1 ∧
    findClass (machine_learn db p) "custom" = some (customClass p) :=
  ⟨setKey_setKey db "custom" (customClass p) (customClass q),
   setKey_length db "custom" (customClass p),
   findClass_setKey_self db "custom" (customClass p)⟩

/-- C4 counterexample: the suggestion built for a `cloudflare` line stores
the remedy with the literal placeholder `--proxy={proxy}`; no proxy from the
configured list is substituted at creation time. -/
theorem suggestion_placeholder_unresolved :
    (classifyLine load_error_patterns "Cloudflare detected" 0).suggestions =
      [sugCF 0] ∧
    "--proxy=\x7bproxy\x7d" ∈ (sugCF 0).solution.params ∧
    "--proxy=http://127.0.0.1:8080" ∉ (sugCF 0).solution.params ∧
    defaultProxyList = ["http://127.0.0.1:8080"] := by
  decide

/-- C4 (amended): every suggestion in the history carries the matched class
id, the timestamp, and that class's configured remedy verbatim — placeholders
unresolved — regardless of any learning that happens later in the run. -/
theorem suggestion_remedy_verbatim (lines : List String) (t : Nat)
    (s : Suggestion)
    (hs : s ∈ (realtime_analysis load_error_patterns lines t).history) :
    (s.type = "500" ∧ s.timestamp = t ∧ s.solution = sol500) ∨
    (s.type = "cloudflare" ∧ s.timestamp = t ∧ s.solution = solCloudflare) := by
  rcases realtime_history_mem lines t s hs with h | h <;> subst h <;>
    simp [sug500, sugCF]

/-- Witness for the amended C4 theorem at a concrete run. -/
theorem suggestion_remedy_verbatim_witness :
    sugCF 0 ∈ (realtime_analysis load_error_patterns
        ["Cloudflare detected"] 0).history ∧
    (((sugCF 0).type = "500" ∧ (sugCF 0).timestamp = 0 ∧
        (sugCF 0).solution = sol500) ∨
     ((sugCF 0).type = "cloudflare" ∧ (sugCF 0).timestamp = 0 ∧
        (sugCF 0).solution = solCloudflare)) :=
  ⟨by decide,
   suggestion_remedy_verbatim ["Cloudflare detected"] 0 (sugCF 0) (by decide)⟩

/-- C5 counterexample: on a launch failure no report is written (the claim
requires a flush with empty history), and a crash of the analysis loop also
skips the report. -/
theorem flush_skipped_on_failures :
    (run false [] 0).flushCount = 0 ∧
    (run false [] 0).history = [] ∧
    (run true ["SQL syntax error"] 0).flushCount = 0 := by
  decide

/-- C5 (amended): `generate_report` runs exactly once when the run launched
and the line loop reached end of stream without an escaping error, and zero
times on a launch failure or when a line made the classification step
raise. -/
theorem flush_only_on_normal_completion (launchOk : Bool) (lines : List String)
    (t : Nat) :
    (run launchOk lines t).flushCount =
      if launchOk ∧ ¬ lines.any matches500 then 1 else 0 := by
  cases launchOk
  · simp [run]
  · cases h : lines.any matches500 <;> simp [run, realtime_flushed, h]

/-- C6 counterexample: with an empty history the report body is just the
fixed header; neither a session id nor the target URL occurs in it. -/
theorem report_content_lacks_session_and_url :
    generate_report_content [] = reportHeader ∧
    strContains (generate_report_content []) "session_1700000000" = false ∧
    strContains (generate_report_content []) "http://example.com/?id=1" = false := by
  decide

/-- C6 (amended): the session id appears in the report file name only; the
report body is the fixed header followed by one entry per suggestion of the
history, in order, each carrying its class id and its stored remedy, and
every suggestion of the history occurs in the body. -/
theorem report_contains_history_in_order (sid : String) (opts : List Suggestion)
    (s : Suggestion) (hs : s ∈ opts) :
    generate_report_file sid = "./reports/" ++ sid ++ "_report.html" ∧
    generate_report_content opts =
      reportHeader ++ String.join (opts.map reportEntry) ∧
    ∃ pre post : String,
      generate_report_content opts = pre ++ reportEntry s ++ post := by
  refine ⟨rfl, report_content_eq opts, ?_⟩
  obtain ⟨l1, l2, rfl⟩ := List.append_of_mem hs
  refine ⟨reportHeader ++ String.join (l1.map reportEntry),
          String.join (l2.map reportEntry), ?_⟩
  rw [report_content_eq]
  apply String.ext
  simp [strData_append, strJoin_data, List.append_assoc]

/-- Witness for the amended C6 theorem at a concrete history. -/
theorem report_contains_history_in_order_witness :
    sugCF 3 ∈ [sug500 2, sugCF 3] ∧
    (generate_report_file "session_7" = "./reports/" ++ "session_7" ++ "_report.html" ∧
     generate_report_content [sug500 2, sugCF 3] =
       reportHeader ++ String.join ([sug500 2, sugCF 3].map reportEntry) ∧
     ∃ pre post : String,
       generate_report_content [sug500 2, sugCF 3] =
         pre ++ reportEntry (sugCF 3) ++ post) :=
  ⟨by decide,
   report_contains_history_in_order "session_7" [sug500 2, sugCF 3] (sugCF 3)
     (by decide)⟩

/-- C7 counterexample: a consumed line with surrounding whitespace is echoed
stripped, not verbatim. -/
theorem echo_not_verbatim :
    (realtime_analysis load_error_patterns ["  testing  "] 0).echoes =
      ["testing"] ∧
    "testing" ≠ "  testing  " := by
  decide

/-- C7 (amended): every line the loop consumes — including the line whose
classification raises — is echoed before classification, with leading and
trailing whitespace stripped as `print(line.strip())` does. -/
theorem echo_is_python_strip (lines : List String) (t : Nat) :
    (realtime_analysis load_error_patterns lines t).echoes =
      (lines.take (consumedCount lines)).map pyStrip := by
  induction lines with
  | nil => simp [realtime_analysis, consumedCount]
  | cons l ls ih =>
      cases h : matches500 l
      · have hr : (classifyLine load_error_patterns l t).raised = false := by
          rw [classify_raised, h]
        simp [realtime_analysis, hr, classify_db_not500 l t h, ih,
          consumedCount, h]
      · have hr : (classifyLine load_error_patterns l t).raised = true := by
          rw [classify_raised, h]
        simp [realtime_analysis, hr, consumedCount, h]

/-- C8 (confirmed): during the cloudflare confirmation, any answer whose
lowercase form is not `n` — the empty line included — extends the command
list with the remedy's tamper selection, the delay, and a proxy freshly
chosen from the proxy list; an `n`/`N` answer leaves the command unchanged. -/
theorem confirmation_default_yes (choice : String) (cmd proxyList : List String)
    (idx : Nat) (hne : proxyList ≠ []) :
    (pyLower choice ≠ "n" →
      applyOptimization "cloudflare" choice cmd proxyList idx =
        cmd ++ ["--tamper=" ++ String.intercalate "," solCloudflare.tampers,
                "--delay=7", "--proxy=" ++ random_choice proxyList idx] ∧
      random_choice proxyList idx ∈ proxyList) ∧
    (pyLower choice = "n" →
      applyOptimization "cloudflare" choice cmd proxyList idx = cmd) := by
  have hlen : 0 < proxyList.length := List.length_pos.mpr hne
  have hlt : idx % proxyList.length < proxyList.length := Nat.mod_lt _ hlen
  have hmem : random_choice proxyList idx ∈ proxyList := by
    rw [random_choice, List.getD_eq_getElem?_getD, List.getElem?_eq_getElem hlt]
    exact List.getElem_mem hlt
  have htam : "--tamper=" ++ String.intercalate "," solCloudflare.tampers =
      "--tamper=randomcase,space2plus" := by
    decide
  constructor
  · intro h
    refine ⟨?_, hmem⟩
    rw [htam]
    simp [applyOptimization, h, newParams]
  · intro h
    simp [applyOptimization, h]

/-- Witness for the C8 theorem: empty operator input is affirmative. -/
theorem confirmation_default_yes_witness :
    defaultProxyList ≠ [] ∧
    ((pyLower "" ≠ "n" →
      applyOptimization "cloudflare" "" ["sqlmap"] defaultProxyList 0 =
        ["sqlmap"] ++ ["--tamper=" ++ String.intercalate "," solCloudflare.tampers,
                "--delay=7", "--proxy=" ++ random_choice defaultProxyList 0] ∧
      random_choice defaultProxyList 0 ∈ defaultProxyList) ∧
     (pyLower "" = "n" →
      applyOptimization "cloudflare" "" ["sqlmap"] defaultProxyList 0 = ["sqlmap"])) :=
  ⟨by decide, confirmation_default_yes "" ["sqlmap"] defaultProxyList 0 (by decide)⟩

/-- C9 (confirmed): every sequence of learn calls leaves the catalog with the
two built-in classes plus exactly one `custom` entry holding the most
recently learned trigger — each learn overwrites the previous one. -/
theorem catalog_single_custom_entry (q : Pat) (ps : List Pat) :
    (q :: ps).foldl machine_learn load_error_patterns =
      load_error_patterns ++ [("custom", customClass (lastLearn q ps))] ∧
    ((q :: ps).foldl machine_learn load_error_patterns).length = 3 ∧
    ((q :: ps).foldl machine_learn load_error_patterns).countP
        (fun e => e.1 == "custom") = 1 := by
  have h : (q :: ps).foldl machine_learn load_error_patterns =
      load_error_patterns ++ [("custom", customClass (lastLearn q ps))] := by
    have h0 : (q :: ps).foldl machine_learn load_error_patterns =
        ps.foldl machine_learn (machine_learn load_error_patterns q) := rfl
    rw [h0, machine_learn_db0, machine_learn_foldl]
  refine ⟨h, ?_, ?_⟩ <;> rw [h] <;> simp [load_error_patterns, List.countP_cons]

/-- C10 (confirmed): no operation touches a built-in class — `machine_learn`
only writes the `custom` key, classification leaves the `500` entry exactly
as loaded with `learned = False` — so a line matching a `500` trigger makes
the classification step call the learn step again every time it is
processed against that entry. -/
theorem builtin_classes_never_modified (db : ErrorDB) (p : Pat) (k : String)
    (line : String) (t u : Nat) (hk : k ≠ "custom") (hm : matches500 line = true) :
    findClass (machine_learn db p) k = findClass db k ∧
    findClass ((classifyLine load_error_patterns line t).db) "500" =
      some data500 ∧
    data500.learned = false ∧
    (processEntry line u "500" data500 db).2.2 ≠ [] := by
  refine ⟨findClass_setKey_ne db k "custom" (customClass p) hk, ?_, rfl, ?_⟩
  · rw [classifyLine_db0]
    simp [hm, findClass, List.find?, load_error_patterns]
  · cases hb1 : trig500a.search line <;> cases hb2 : trig500b.search line <;>
      simp_all [processEntry, data500, matches500]

/-- Witness for the C10 theorem at the built-in class `500` and a matching
line. -/
theorem builtin_classes_never_modified_witness :
    (("500" : String) ≠ "custom" ∧ matches500 "SQL syntax error" = true) ∧
    (findClass (machine_learn load_error_patterns trig500a) "500" =
        findClass load_error_patterns "500" ∧
     findClass ((classifyLine load_error_patterns "SQL syntax error" 0).db) "500" =
        some data500 ∧
     data500.learned = false ∧
     (processEntry "SQL syntax error" 0 "500" data500 load_error_patterns).2.2 ≠ []) :=
  ⟨⟨by decide, by decide⟩,
   builtin_classes_never_modified load_error_patterns trig500a "500"
     "SQL syntax error" 0 0 (by decide) (by decide)⟩
end SqlmapAI
